import Mathlib

/-!
Verification development for the weishaupt_modbus integration core:
the Modbus register access and validation layer (modbusobject.py) and
the power-map interpolation engine (kennfeld.py), shallowly embedded
over ℤ and ℚ with exceptions modelled by Except and I/O outcomes by
explicit environment values.
-/

namespace WeishauptModbus

/-- const.py FormatConstants enum. -/
inductive FormatConstants
  | TEMPERATUR
  | PERCENTAGE
  | NUMBER
  | STATUS
  | UNKNOWN
deriving DecidableEq

/-- const.py TypeConstants enum. -/
inductive TypeConstants
  | SENSOR
  | SENSOR_CALC
  | SELECT
  | NUMBER
  | NUMBER_RO
deriving DecidableEq

/-- items.py ModbusItem: the fields read or written by modbusobject.py. -/
structure ModbusItem where
  format : FormatConstants
  type : TypeConstants
  address : Nat
  is_invalid : Bool
deriving DecidableEq

/-- Mutable connection state of ModbusAPI (modbusobject.py, constructor):
the client's connected flag, the connect-pending flag and the
consecutive-failure counter. -/
structure APIState where
  connected : Bool
  connect_pending : Bool
  failed_reconnect_counter : Nat
deriving DecidableEq

/-- Outcome of the underlying socket connect attempt
(await self.modbus client.connect): the client ends up connected, ends up
not connected, or the attempt raises a ModbusException. -/
inductive ConnectOutcome
  | success
  | notConnected
  | modbusError
deriving DecidableEq

/-- Observable effects of one ModbusAPI.connect call: the new state, the
returned boolean, whether a socket connect was attempted, how many seconds
were slept, and whether close was called on the client. -/
structure ConnectResult where
  state : APIState
  result : Bool
  attempted_socket_connect : Bool
  slept_seconds : Nat
  closed_socket : Bool
deriving DecidableEq

/-- ModbusAPI.connect (modbusobject.py lines 40-70).  If a connect is
pending, the current connected flag is returned at once.  Otherwise, when
the failure counter has reached 3 and this is not a startup call, the code
sleeps 300 seconds; in every non-pending case it then performs the socket
connect attempt.  Success resets the counter; a not-connected result or a
ModbusException increments it and closes the client. -/
def connect (s : APIState) (startup : Bool) (outcome : ConnectOutcome) : ConnectResult :=
  if s.connect_pending = true then
    { state := s, result := s.connected, attempted_socket_connect := false,
      slept_seconds := 0, closed_socket := false }
  else
    let slept : Nat := if 3 ≤ s.failed_reconnect_counter ∧ startup = false then 300 else 0
    match outcome with
    | ConnectOutcome.success =>
        { state := { connected := true, connect_pending := false,
                     failed_reconnect_counter := 0 },
          result := true, attempted_socket_connect := true, slept_seconds := slept,
          closed_socket := false }
    | ConnectOutcome.notConnected =>
        { state := { connected := false, connect_pending := false,
                     failed_reconnect_counter := s.failed_reconnect_counter + 1 },
          result := false, attempted_socket_connect := true, slept_seconds := slept,
          closed_socket := true }
    | ConnectOutcome.modbusError =>
        { state := { connected := false, connect_pending := false,
                     failed_reconnect_counter := s.failed_reconnect_counter + 1 },
          result := false, attempted_socket_connect := true, slept_seconds := slept,
          closed_socket := true }

/-- ModbusObject.check_temperature (modbusobject.py lines 121-145).
Returns the decoded value together with the updated item (whose
is_invalid flag the Python method mutates). -/
def check_temperature (item : ModbusItem) (val : Int) : Option Int × ModbusItem :=
  if val = -32768 then (none, { item with is_invalid := true })
  else if val = 32768 then (none, { item with is_invalid := true })
  else if val = -32767 then (some (-999), { item with is_invalid := false })
  else if 32768 < val then (some (val - 65536), { item with is_invalid := false })
  else (some val, { item with is_invalid := false })

/-- ModbusObject.check_percentage (modbusobject.py lines 147-158). -/
def check_percentage (item : ModbusItem) (val : Int) : Option Int × ModbusItem :=
  if val = 65535 then (none, { item with is_invalid := true })
  else (some val, { item with is_invalid := false })

/-- ModbusObject.check_status (modbusobject.py lines 160-163). -/
def check_status (item : ModbusItem) (val : Int) : Option Int × ModbusItem :=
  (some val, { item with is_invalid := false })

/-- ModbusObject.check_valid_result (modbusobject.py lines 108-119):
dispatch on the item's declared format. -/
def check_valid_result (item : ModbusItem) (val : Int) : Option Int × ModbusItem :=
  match item.format with
  | FormatConstants.TEMPERATUR => check_temperature item val
  | FormatConstants.PERCENTAGE => check_percentage item val
  | FormatConstants.STATUS => check_status item val
  | _ => (some val, { item with is_invalid := false })

/-- ModbusObject.check_valid_response (modbusobject.py lines 165-173):
write-side encoding; negative temperatures get 65536 added. -/
def check_valid_response (item : ModbusItem) (val : Int) : Int :=
  match item.format with
  | FormatConstants.TEMPERATUR => if val < 0 then val + 65536 else val
  | _ => val

/-- Shape of a pymodbus read response as consumed by
ModbusObject.validate_modbus_answer: error flag, device exception code,
whether the object is an ExceptionResponse, and the register words. -/
structure ModbusResponse where
  isError : Bool
  exception_code : Int
  isExceptionResponse : Bool
  registers : List Int
deriving DecidableEq

/-- Observable result of validate_modbus_answer: returned value, updated
item, and whether a warning-level log was emitted. -/
structure ValidateResult where
  value : Option Int
  item : ModbusItem
  warned : Bool
deriving DecidableEq

/-- ModbusObject.validate_modbus_answer (modbusobject.py lines 175-203). -/
def validate_modbus_answer (item : ModbusItem) (mbr : ModbusResponse) : ValidateResult :=
  if mbr.isError = true then
    if mbr.exception_code = 2 then
      { value := none, item := { item with is_invalid := true }, warned := false }
    else
      { value := none, item := item, warned := true }
  else if mbr.isExceptionResponse = true then
    { value := none, item := item, warned := true }
  else
    match mbr.registers with
    | [] => { value := none, item := item, warned := false }
    | v :: _ =>
        let r := check_valid_result item v
        { value := r.1, item := r.2, warned := false }

/-- The part of the pymodbus client state the value property reads. -/
structure ClientModel where
  connected : Bool
deriving DecidableEq

/-- Which register address space a read went to. -/
inductive AddrSpace
  | input
  | holding
deriving DecidableEq

/-- Environment of one read: either the device answers with a response,
or the read raises a ModbusException. -/
inductive ReadEnv
  | response (mbr : ModbusResponse)
  | raiseModbusError
deriving DecidableEq

/-- Observable result of one evaluation of the value property: the value
returned to the caller, the updated item, which address space (if any) a
Modbus read was issued to, and whether a warning was logged. -/
structure ValueResult where
  value : Option Int
  item : ModbusItem
  io : Option AddrSpace
  warned : Bool
deriving DecidableEq

/-- ModbusObject.value property (modbusobject.py lines 205-250). -/
def value (client : Option ClientModel) (no_connect_warn : Bool)
    (item : ModbusItem) (env : ReadEnv) : ValueResult :=
  match client with
  | none => { value := none, item := item, io := none, warned := false }
  | some c =>
    if c.connected = false then
      if no_connect_warn = true then
        { value := none, item := item, io := none, warned := false }
      else
        { value := none, item := item, io := none, warned := true }
    else if item.is_invalid = false then
      match item.type with
      | TypeConstants.SENSOR | TypeConstants.SENSOR_CALC =>
          (match env with
           | ReadEnv.response mbr =>
               let r := validate_modbus_answer item mbr
               { value := r.value, item := r.item, io := some AddrSpace.input,
                 warned := r.warned }
           | ReadEnv.raiseModbusError =>
               { value := none, item := item, io := some AddrSpace.input, warned := true })
      | TypeConstants.SELECT | TypeConstants.NUMBER | TypeConstants.NUMBER_RO =>
          (match env with
           | ReadEnv.response mbr =>
               let r := validate_modbus_answer item mbr
               { value := r.value, item := r.item, io := some AddrSpace.holding,
                 warned := r.warned }
           | ReadEnv.raiseModbusError =>
               { value := none, item := item, io := some AddrSpace.holding, warned := true })
    else
      { value := none, item := item, io := none, warned := false }

/-- Iterate the value property over a sequence of read environments,
threading the (possibly mutated) item; returns the per-read results and
the final item. -/
def value_runs (client : Option ClientModel) (no_connect_warn : Bool) :
    ModbusItem → List ReadEnv → List ValueResult × ModbusItem
  | item, [] => ([], item)
  | item, e :: es =>
      let r := value client no_connect_warn item e
      let p := value_runs client no_connect_warn r.item es
      (r :: p.1, p.2)

/-! kennfeld.py: the power-map interpolation engine, over ℚ. -/

/-- The calibration table: known_x, known_y, known_t (kennfeld.py
class attributes / file-loaded values). -/
structure Calib where
  known_x : List ℚ
  known_y : List (List ℚ)
  known_t : List ℚ
deriving DecidableEq

/-- Built-in default outside-temperature sample points (kennfeld.py known_x). -/
def default_known_x : List ℚ :=
  [-30, -25, -22, -20, -15, -10, -5, 0, 5, 10, 15, 20, 25, 30, 35, 40]

/-- Built-in default power rows at the two flow temperatures (kennfeld.py known_y). -/
def default_known_y : List (List ℚ) :=
  [[5700, 5700, 5700, 5700, 6290, 7580, 8660, 9625, 10300, 10580, 10750,
    10790, 10830, 11000, 11000, 11000],
   [5700, 5700, 5700, 5700, 6860, 7300, 8150, 9500, 10300, 10580, 10750,
    10790, 10830, 11000, 11000, 11000]]

/-- Built-in default flow temperatures (kennfeld.py known_t). -/
def default_known_t : List ℚ := [35, 55]

/-- The built-in default calibration table. -/
def default_calib : Calib :=
  { known_x := default_known_x, known_y := default_known_y, known_t := default_known_t }

/-- self.steps set in PowerMap constructor. -/
def pmSteps : Nat := 21

/-- np.linspace(a, b, n): n evenly spaced samples from a to b inclusive. -/
def linspace (a b : ℚ) (n : Nat) : List ℚ :=
  (List.range n).map (fun (i : Nat) => a + (b - a) * (i : ℚ) / ((n : ℚ) - 1))

/-- Core of np.interp for one query point: walk the (xp, fp) pairs,
clamping on the left of the first point and on the right of the last. -/
def interpAux (x : ℚ) : ℚ × ℚ → List (ℚ × ℚ) → ℚ
  | (x0, y0), [] =>
      if x ≤ x0 then y0 else y0
  | (x0, y0), (x1, y1) :: rest =>
      if x ≤ x0 then y0
      else if x ≤ x1 then y0 + (y1 - y0) * (x - x0) / (x1 - x0)
      else interpAux x (x1, y1) rest

/-- np.interp(xs, xp, fp), vectorised over the query points.  Returns
none exactly where numpy raises: empty xp or xp/fp length mismatch. -/
def npInterp (xs xp fp : List ℚ) : Option (List ℚ) :=
  if xp.length = fp.length then
    match xp.zip fp with
    | [] => none
    | p :: rest => some (xs.map (fun x => interpAux x p rest))
  else none

/-- Outcome of one curve-fitter invocation: a usable evaluation function,
or the fit raised. -/
inductive FitResult
  | ok (f : ℚ → ℚ)
  | fail

/-- Environment for one interpolation row: whether scipy CubicSpline is
importable, what CubicSpline returns, what Chebyshev.fit returns for a
given degree, and whether evaluating the fitted function raises. -/
structure RowEnv where
  splineAvailable : Bool
  splineFit : FitResult
  chebFit : Nat → FitResult
  evalFails : Bool

/-- PowerMap.create_interpolation_func (kennfeld.py lines 254-276):
validate the data, prefer a natural cubic spline, fall back to a
Chebyshev fit of degree min(8, number of points - 1), and return none
when both fitters fail. -/
def create_interpolation_func (env : RowEnv) (x_data y_data : List ℚ) :
    Option (ℚ → ℚ) :=
  if x_data.length ≠ y_data.length ∨ x_data.length < 2 then none
  else
    match (if env.splineAvailable = true then env.splineFit else FitResult.fail) with
    | FitResult.ok f => some f
    | FitResult.fail =>
        match env.chebFit (min 8 (x_data.length - 1)) with
        | FitResult.ok g => some g
        | FitResult.fail => none

/-- State of a PowerMap instance after construction / interpolation. -/
structure PMState where
  steps : Nat
  known_t : List ℚ
  max_power : List (List ℚ)
  all_t : Option (List ℚ)
  r_to_interpolate : Option (List ℚ)
deriving DecidableEq

/-- Turn an optional value into an Except, the none case standing for the
named Python exception. -/
def exceptOf {α : Type} (o : Option α) (msg : String) : Except String α :=
  match o with
  | some a => Except.ok a
  | none => Except.error msg

/-- One in-place matrix assignment m[r][idx] = v. -/
def setEntry (m : List (List ℚ)) (r idx : Nat) (v : ℚ) : List (List ℚ) :=
  m.set r ((m.getD r []).set idx v)

/-- One iteration of the per-column linear interpolation loop of
perform_interpolation (kennfeld.py lines 201-213): read the column values
of the first and last rows, run np.interp of the column against the two
flow temperatures, and write the interpolated column back into the
matrix. -/
def interpColumnStep (kt rvals : List ℚ) (m : List (List ℚ)) (idx : Nat) :
    Except String (List (List ℚ)) := do
  let a ← exceptOf ((m.getD 0 []).get? idx) "IndexError"
  let b ← exceptOf ((m.getD (pmSteps - 1) []).get? idx) "IndexError"
  let ip ← exceptOf (npInterp rvals kt [a, b]) "ValueError"
  Except.ok ((List.range rvals.length).foldl
    (fun m2 r => setEntry m2 r idx (ip.getD r 0)) m)

/-- One iteration of the power-curve resampling loop of
perform_interpolation (kennfeld.py lines 220-241): fit the row through
create_interpolation_func, evaluate at all_t, and fall back to np.interp
when the function is unavailable or its evaluation raises. -/
def rowResample (cal : Calib) (env : Nat → RowEnv) (interp_y : List (List ℚ))
    (all_t : List ℚ) (idx : Nat) : Except String (List ℚ) :=
  let row := interp_y.getD idx []
  match create_interpolation_func (env idx) cal.known_x row with
  | some f =>
      if (env idx).evalFails = true then
        exceptOf (npInterp all_t cal.known_x row) "ValueError"
      else Except.ok (all_t.map f)
  | none => exceptOf (npInterp all_t cal.known_x row) "ValueError"

/-- PowerMap.perform_interpolation (kennfeld.py lines 180-241).  Builds
the steps x known_x matrix by per-column linear interpolation between the
two calibration rows, then resamples every row at the 71 integer degrees
from -30 to 40 through create_interpolation_func, falling back to
np.interp when the fitted function is unavailable or its evaluation
raises.  Except.error marks the points where the Python code would raise
an uncaught exception. -/
def perform_interpolation (cal : Calib) (env : Nat → RowEnv) :
    Except String PMState := do
  let t0 ← exceptOf (cal.known_t.get? 0) "IndexError"
  let t1 ← exceptOf (cal.known_t.get? 1) "IndexError"
  let rvals := linspace t0 t1 pmSteps
  let y0 ← exceptOf (cal.known_y.get? 0) "IndexError"
  let ylast ← exceptOf (cal.known_y.get? 1) "IndexError"
  let m0 : List (List ℚ) :=
    y0 :: (List.replicate (pmSteps - 2) (List.replicate cal.known_x.length (0 : ℚ)) ++ [ylast])
  let interp_y ← (List.range cal.known_x.length).foldlM (interpColumnStep cal.known_t rvals) m0
  let all_t := linspace (-30) 40 71
  let max_power ← (List.range rvals.length).mapM (rowResample cal env interp_y all_t)
  Except.ok { steps := pmSteps, known_t := cal.known_t, max_power := max_power,
              all_t := some all_t, r_to_interpolate := some rvals }

/-- Python int(): truncation toward zero. -/
def pyInt (q : ℚ) : Int := if q < 0 then ⌈q⌉ else ⌊q⌋

/-- The clamped column index of PowerMap.map:
int((outside_temp + 30) * 71 / 70) clamped into [0, 70]. -/
def xIndex (outside_temp : ℚ) : Int :=
  max 0 (min 70 (pyInt ((outside_temp + 30) * 71 / 70)))

namespace PowerMap

/-- PowerMap.map (kennfeld.py lines 278-295).  Raises ValueError when the
surface is not built; otherwise looks up the clamped (row, column) entry.
Except.error marks the points where Python would raise. -/
def map (st : PMState) (outside_temp flow_temp : ℚ) : Except String ℚ :=
  if st.max_power = [] ∨ st.all_t = none ∨ st.r_to_interpolate = none then
    Except.error "PowerMap not initialized"
  else do
    let x_idx := xIndex outside_temp
    let t0 ← exceptOf (st.known_t.get? 0) "IndexError"
    let t1 ← exceptOf (st.known_t.get? 1) "IndexError"
    if t1 - t0 = 0 then Except.error "ZeroDivisionError"
    else
      let y_idx := max 0 (min ((st.steps : Int) - 1)
        (pyInt ((flow_temp - t0) / (t1 - t0) * ((st.steps : ℚ) - 1))))
      let row ← exceptOf (st.max_power.get? y_idx.toNat) "IndexError"
      let v ← exceptOf (row.get? x_idx.toNat) "IndexError"
      Except.ok v

end PowerMap

/-- A JSON value that float() is applied to while loading the kennfeld
file: either convertible to a number, or not (float raises ValueError). -/
inductive JsonNum
  | num (q : ℚ)
  | notNumeric
deriving DecidableEq

/-- float(x) on a loaded JSON value. -/
def floatOf : JsonNum → Except String ℚ
  | JsonNum.num q => Except.ok q
  | JsonNum.notNumeric => Except.error "ValueError"

/-- Outcome of opening and json-parsing the kennfeld file, classified by
the exception clauses of PowerMap.initialize: OSError (absent or
unreadable), json.JSONDecodeError, KeyError (a key missing), or a parsed
object with the three keys present. -/
inductive FileContent
  | absent
  | invalidJson
  | missingKey
  | parsed (kx : List JsonNum) (ky : List (List JsonNum)) (kt : List JsonNum)

/-- PowerMap.initialize (kennfeld.py lines 138-178): read the calibration
from the file, falling back to the built-in defaults on OSError,
JSONDecodeError or KeyError only; the float() conversions run inside the
try block but their ValueError is not in the except clause, so it
propagates.  Afterwards the interpolation pass runs. -/
def powermap_setup (defaults : Calib) (fc : FileContent) (env : Nat → RowEnv) :
    Except String PMState :=
  match fc with
  | FileContent.absent => perform_interpolation defaults env
  | FileContent.invalidJson => perform_interpolation defaults env
  | FileContent.missingKey => perform_interpolation defaults env
  | FileContent.parsed kx ky kt => do
      let x ← kx.mapM floatOf
      let y ← ky.mapM (fun row => row.mapM floatOf)
      let t ← kt.mapM floatOf
      perform_interpolation { known_x := x, known_y := y, known_t := t } env

/-- Well-formedness of a calibration table per the data model: known_t
holds exactly the two flow levels in increasing order, known_y is a 2 x N
matrix aligned with the N sample points of known_x, N positive. -/
def CalibWF (cal : Calib) : Prop :=
  cal.known_t.length = 2 ∧
  cal.known_t.getD 0 0 < cal.known_t.getD 1 0 ∧
  cal.known_y.length = 2 ∧
  0 < cal.known_x.length ∧
  ∀ row ∈ cal.known_y, row.length = cal.known_x.length

instance (cal : Calib) : Decidable (CalibWF cal) := by
  unfold CalibWF; infer_instance

/-! Concrete instances used by witnesses. -/

/-- A concrete temperature sensor item. -/
def itemT : ModbusItem :=
  { format := FormatConstants.TEMPERATUR, type := TypeConstants.SENSOR,
    address := 30002, is_invalid := false }

/-- The same item with its invalid flag set. -/
def itemInv : ModbusItem := { itemT with is_invalid := true }

/-- A fresh connection state. -/
def api0 : APIState :=
  { connected := false, connect_pending := false, failed_reconnect_counter := 0 }

/-- An error response with device exception code 2 (illegal data address). -/
def mbrIllegalAddr : ModbusResponse :=
  { isError := true, exception_code := 2, isExceptionResponse := true, registers := [] }

/-- An error response with a different device exception code. -/
def mbrOtherError : ModbusResponse :=
  { isError := true, exception_code := 3, isExceptionResponse := true, registers := [] }

/-- A connected client. -/
def client1 : ClientModel := { connected := true }

/-- A constant curve used as a concrete fit result. -/
def f0 : ℚ → ℚ := fun _ => 0

/-- Another constant curve used as a concrete fit result. -/
def g0 : ℚ → ℚ := fun _ => 1

/-- Row environment: spline available and succeeding. -/
def renv1 : RowEnv :=
  { splineAvailable := true, splineFit := FitResult.ok f0,
    chebFit := fun _ => FitResult.fail, evalFails := false }

/-- Row environment: spline unavailable, Chebyshev succeeding. -/
def renv2 : RowEnv :=
  { splineAvailable := false, splineFit := FitResult.fail,
    chebFit := fun _ => FitResult.ok g0, evalFails := false }

/-- Row environment: both fitters failing. -/
def renv3 : RowEnv :=
  { splineAvailable := false, splineFit := FitResult.fail,
    chebFit := fun _ => FitResult.fail, evalFails := false }

/-- Environment assigning renv1 to every row. -/
def env0 : Nat → RowEnv := fun _ => renv1

/-- A small well-formed calibration table. -/
def cal1 : Calib := { known_x := [0], known_y := [[1], [2]], known_t := [35, 55] }

/-- An unbuilt power-map state (empty surface, axes unset). -/
def st_empty : PMState :=
  { steps := pmSteps, known_t := [35, 55], max_power := [],
    all_t := none, r_to_interpolate := none }

/-! Theorems. -/

/-- C1: for every raw value read for a temperature-format item,
check_temperature yields null with the invalid flag set for -32768 and
32768, the sentinel -999 with the flag cleared for -32767, the
two's-complement decode v - 65536 with the flag cleared for any other
v > 32768, and v unchanged with the flag cleared otherwise. -/
theorem check_temperature_decode (it : ModbusItem) (v : Int) :
    (v = -32768 → check_temperature it v = (none, { it with is_invalid := true })) ∧
    (v = 32768 → check_temperature it v = (none, { it with is_invalid := true })) ∧
    (v = -32767 → check_temperature it v = (some (-999), { it with is_invalid := false })) ∧
    (v ≠ -32768 → v ≠ 32768 → v ≠ -32767 → 32768 < v →
      check_temperature it v = (some (v - 65536), { it with is_invalid := false })) ∧
    (v ≠ -32768 → v ≠ 32768 → v ≠ -32767 → ¬32768 < v →
      check_temperature it v = (some v, { it with is_invalid := false })) := by
  refine ⟨fun h => ?_, fun h => ?_, fun h => ?_,
    fun h1 h2 h3 h4 => ?_, fun h1 h2 h3 h4 => ?_⟩
  · subst h; norm_num [check_temperature]
  · subst h; norm_num [check_temperature]
  · subst h; norm_num [check_temperature]
  · simp only [check_temperature, if_neg h1, if_neg h2, if_neg h3, if_pos h4]
  · simp only [check_temperature, if_neg h1, if_neg h2, if_neg h3, if_neg h4]

/-- Witness for C1 at the concrete raw values -32768, 32768, -32767,
65436 and 250. -/
theorem check_temperature_decode_witness :
    check_temperature itemT (-32768) = (none, { itemT with is_invalid := true }) ∧
    check_temperature itemT 32768 = (none, { itemT with is_invalid := true }) ∧
    check_temperature itemT (-32767) = (some (-999), { itemT with is_invalid := false }) ∧
    check_temperature itemT 65436 = (some (65436 - 65536), { itemT with is_invalid := false }) ∧
    check_temperature itemT 250 = (some 250, { itemT with is_invalid := false }) :=
  ⟨(check_temperature_decode itemT (-32768)).1 rfl,
   (check_temperature_decode itemT 32768).2.1 rfl,
   (check_temperature_decode itemT (-32767)).2.2.1 rfl,
   (check_temperature_decode itemT 65436).2.2.2.1
     (by decide) (by decide) (by decide) (by decide),
   (check_temperature_decode itemT 250).2.2.2.2
     (by decide) (by decide) (by decide) (by decide)⟩

/-- C2: for a temperature-format item, check_valid_response adds 65536 to
negative values and passes the rest through; over [-999, -1] the wire
value equals (t + 65536) mod 65536 and decoding it with check_temperature
returns t again. -/
theorem check_valid_response_roundtrip (it : ModbusItem) (t : Int)
    (hf : it.format = FormatConstants.TEMPERATUR) :
    (t < 0 → check_valid_response it t = t + 65536) ∧
    (0 ≤ t → check_valid_response it t = t) ∧
    (-999 ≤ t → t ≤ -1 →
      check_valid_response it t = (t + 65536) % 65536 ∧
      (check_temperature it (check_valid_response it t)).1 = some t) := by
  have hcvr : check_valid_response it t = if t < 0 then t + 65536 else t := by
    unfold check_valid_response
    rw [hf]
  refine ⟨fun h => ?_, fun h => ?_, fun h1 h2 => ?_⟩
  · rw [hcvr, if_pos h]
  · rw [hcvr, if_neg (not_lt.mpr h)]
  · have hlt : t < 0 := by omega
    rw [hcvr, if_pos hlt]
    refine ⟨(Int.emod_eq_of_lt (by omega) (by omega)).symm, ?_⟩
    simp only [check_temperature]
    rw [if_neg (by omega), if_neg (by omega), if_neg (by omega), if_pos (by omega)]
    have hs : t + 65536 - 65536 = t := by ring
    rw [hs]

/-- Witness for C2 at t = -100 on a temperature item. -/
theorem check_valid_response_roundtrip_witness :
    check_valid_response itemT (-100) = -100 + 65536 ∧
    check_valid_response itemT 100 = 100 ∧
    (check_valid_response itemT (-100) = (-100 + 65536) % 65536 ∧
      (check_temperature itemT (check_valid_response itemT (-100))).1 = some (-100)) :=
  ⟨(check_valid_response_roundtrip itemT (-100) rfl).1 (by decide),
   (check_valid_response_roundtrip itemT 100 rfl).2.1 (by decide),
   (check_valid_response_roundtrip itemT (-100) rfl).2.2 (by decide) (by decide)⟩

/-- C3 (divergence record): from a non-pending state with the failure
counter at 3, a connect call with startup = false still performs the
socket connect attempt after sleeping 300 seconds, and when the
underlying connect succeeds the call returns Connected (true) with the
counter reset — it does not refuse the attempt and return Failed. -/
theorem connect_after_threshold_attempts_anyway :
    (connect { connected := false, connect_pending := false, failed_reconnect_counter := 3 }
        false ConnectOutcome.success).attempted_socket_connect = true ∧
    (connect { connected := false, connect_pending := false, failed_reconnect_counter := 3 }
        false ConnectOutcome.success).result = true ∧
    (connect { connected := false, connect_pending := false, failed_reconnect_counter := 3 }
        false ConnectOutcome.success).slept_seconds = 300 ∧
    (connect { connected := false, connect_pending := false, failed_reconnect_counter := 3 }
        false ConnectOutcome.success).state.failed_reconnect_counter = 0 := by
  decide

/-- C4: a non-pending connect call handles every outcome without
propagating: on success the failure counter is reset to 0 and true is
returned; on a not-connected result or a caught ModbusException the
counter increases by exactly 1, the client is closed, and false is
returned. -/
theorem connect_outcome_bookkeeping (s : APIState) (startup : Bool)
    (o : ConnectOutcome) (h : s.connect_pending = false) :
    (o = ConnectOutcome.success →
      (connect s startup o).state.failed_reconnect_counter = 0 ∧
      (connect s startup o).result = true) ∧
    ((o = ConnectOutcome.notConnected ∨ o = ConnectOutcome.modbusError) →
      (connect s startup o).state.failed_reconnect_counter =
        s.failed_reconnect_counter + 1 ∧
      (connect s startup o).closed_socket = true ∧
      (connect s startup o).result = false) := by
  cases o <;> simp [connect, h]

/-- Witness for C4 at a fresh state, for a success and an exception. -/
theorem connect_outcome_bookkeeping_witness :
    ((connect api0 false ConnectOutcome.success).state.failed_reconnect_counter = 0 ∧
      (connect api0 false ConnectOutcome.success).result = true) ∧
    ((connect api0 false ConnectOutcome.modbusError).state.failed_reconnect_counter =
        api0.failed_reconnect_counter + 1 ∧
      (connect api0 false ConnectOutcome.modbusError).closed_socket = true ∧
      (connect api0 false ConnectOutcome.modbusError).result = false) :=
  ⟨(connect_outcome_bookkeeping api0 false ConnectOutcome.success rfl).1 rfl,
   (connect_outcome_bookkeeping api0 false ConnectOutcome.modbusError rfl).2 (Or.inr rfl)⟩

/-- C5: on an error response, exception code 2 sets the invalid flag,
logs no warning and yields None; any other code logs a warning, leaves
the flag unchanged and also yields None. -/
theorem validate_error_response (it : ModbusItem) (mbr : ModbusResponse)
    (he : mbr.isError = true) :
    (mbr.exception_code = 2 →
      validate_modbus_answer it mbr =
        { value := none, item := { it with is_invalid := true }, warned := false }) ∧
    (mbr.exception_code ≠ 2 →
      validate_modbus_answer it mbr = { value := none, item := it, warned := true }) := by
  refine ⟨fun h2 => ?_, fun h2 => ?_⟩
  · simp [validate_modbus_answer, he, h2]
  · simp [validate_modbus_answer, he, h2]

/-- Witness for C5 at exception codes 2 and 3. -/
theorem validate_error_response_witness :
    validate_modbus_answer itemT mbrIllegalAddr =
      { value := none, item := { itemT with is_invalid := true }, warned := false } ∧
    validate_modbus_answer itemT mbrOtherError =
      { value := none, item := itemT, warned := true } :=
  ⟨(validate_error_response itemT mbrIllegalAddr rfl).1 rfl,
   (validate_error_response itemT mbrOtherError rfl).2 (by decide)⟩

/-- Helper: when the item's invalid flag is set, one evaluation of the
value property returns None, issues no Modbus read, and leaves the item
untouched. -/
theorem value_invalid_step (client : Option ClientModel) (nw : Bool)
    (item : ModbusItem) (env : ReadEnv) (h : item.is_invalid = true) :
    (value client nw item env).value = none ∧
    (value client nw item env).io = none ∧
    (value client nw item env).item = item := by
  rcases client with _ | c
  · exact ⟨rfl, rfl, rfl⟩
  · by_cases hc : c.connected = false
    · by_cases hw : nw = true <;> simp [value, hc, hw]
    · simp [value, hc, h]

/-- C9: once the invalid flag is set, every subsequent evaluation of the
value property returns None without any Modbus I/O, and the item (its
flag included) is never changed by the read path. -/
theorem invalid_item_skips_reads (client : Option ClientModel) (nw : Bool)
    (item : ModbusItem) (envs : List ReadEnv) (h : item.is_invalid = true) :
    (∀ r ∈ (value_runs client nw item envs).1,
      r.value = none ∧ r.io = none ∧ r.item = item) ∧
    (value_runs client nw item envs).2 = item := by
  induction envs generalizing item with
  | nil => exact ⟨by simp [value_runs], rfl⟩
  | cons e es ih =>
      obtain ⟨h1, h2, h3⟩ := value_invalid_step client nw item e h
      constructor
      · intro r hr
        simp only [value_runs, List.mem_cons] at hr
        rcases hr with hr | hr
        · subst hr; exact ⟨h1, h2, h3⟩
        · rw [h3] at hr
          exact (ih item h).1 r hr
      · simp only [value_runs]
        rw [h3]
        exact (ih item h).2

/-- Witness for C9: an invalid item over two reads, one answered and one
raising. -/
theorem invalid_item_skips_reads_witness :
    (∀ r ∈ (value_runs (some client1) false itemInv
        [ReadEnv.raiseModbusError, ReadEnv.response mbrOtherError]).1,
      r.value = none ∧ r.io = none ∧ r.item = itemInv) ∧
    (value_runs (some client1) false itemInv
      [ReadEnv.raiseModbusError, ReadEnv.response mbrOtherError]).2 = itemInv :=
  invalid_item_skips_reads (some client1) false itemInv
    [ReadEnv.raiseModbusError, ReadEnv.response mbrOtherError] rfl

/-- Helper: truncation toward zero of a nonpositive rational is nonpositive. -/
theorem pyInt_nonpos (q : ℚ) (h : q ≤ 0) : pyInt q ≤ 0 := by
  unfold pyInt
  split_ifs with hq
  · exact Int.ceil_le.mpr (by exact_mod_cast h)
  · have hz : q = 0 := le_antisymm h (not_lt.mp hq)
    simp [hz]

/-- Helper: truncation toward zero of a rational at least 71 is at least 71. -/
theorem pyInt_ge_71 (q : ℚ) (h : (71 : ℚ) ≤ q) : (71 : Int) ≤ pyInt q := by
  unfold pyInt
  rw [if_neg (not_lt.mpr (le_trans (by norm_num) h))]
  exact Int.le_floor.mpr (by exact_mod_cast h)

/-- Helper: outside temperatures at or below -30 land on column 0. -/
theorem xIndex_of_le_neg30 (t : ℚ) (h : t ≤ -30) : xIndex t = 0 := by
  have hq : (t + 30) * 71 / 70 ≤ 0 := by
    rw [div_nonpos_iff]
    right
    constructor
    · nlinarith
    · norm_num
  have hp : pyInt ((t + 30) * 71 / 70) ≤ 0 := pyInt_nonpos _ hq
  unfold xIndex
  rw [min_eq_right (le_trans hp (by norm_num)), max_eq_left hp]

/-- Helper: outside temperatures at or above 40 land on column 70. -/
theorem xIndex_of_ge_40 (t : ℚ) (h : 40 ≤ t) : xIndex t = 70 := by
  have hq : (71 : ℚ) ≤ (t + 30) * 71 / 70 := by
    rw [le_div_iff₀ (by norm_num : (0 : ℚ) < 70)]
    nlinarith
  have hp := pyInt_ge_71 _ hq
  unfold xIndex
  rw [min_eq_left (le_trans (by norm_num) hp), max_eq_right (by norm_num)]

/-- Helper: the map lookup depends on the outside temperature only
through the clamped column index. -/
theorem map_xIndex_congr (st : PMState) (f a b : ℚ) (h : xIndex a = xIndex b) :
    PowerMap.map st a f = PowerMap.map st b f := by
  unfold PowerMap.map
  rw [h]

/-- C6: out-of-domain outside temperatures saturate: querying below -30
gives the value at -30 and querying above 40 gives the value at 40, for
every surface and flow temperature. -/
theorem map_saturates_out_of_domain (st : PMState) (f t : ℚ) :
    (t < -30 → PowerMap.map st t f = PowerMap.map st (-30) f) ∧
    (40 < t → PowerMap.map st t f = PowerMap.map st 40 f) := by
  constructor
  · intro h
    exact map_xIndex_congr st f t (-30)
      (by rw [xIndex_of_le_neg30 t (le_of_lt h), xIndex_of_le_neg30 (-30) (le_refl _)])
  · intro h
    exact map_xIndex_congr st f t 40
      (by rw [xIndex_of_ge_40 t (le_of_lt h), xIndex_of_ge_40 40 (le_refl _)])

/-- Witness for C6 at Query(-999, 45) and Query(999, 45). -/
theorem map_saturates_out_of_domain_witness :
    PowerMap.map st_empty (-999) 45 = PowerMap.map st_empty (-30) 45 ∧
    PowerMap.map st_empty 999 45 = PowerMap.map st_empty 40 45 :=
  ⟨(map_saturates_out_of_domain st_empty 45 (-999)).1 (by norm_num),
   (map_saturates_out_of_domain st_empty 45 999).2 (by norm_num)⟩

/-- Helper: bind on an ok value reduces. -/
theorem except_ok_bind {ε α β : Type} (a : α) (f : α → Except ε β) :
    (Except.ok a >>= f : Except ε β) = f a := rfl

/-- Helper: linspace produces exactly n samples. -/
theorem linspace_length (a b : ℚ) (n : Nat) : (linspace a b n).length = n := by
  rw [linspace, List.length_map, List.length_range]

/-- Helper: np.interp succeeds on aligned nonempty sample data and
returns one value per query point. -/
theorem npInterp_ok (xs xp fp : List ℚ) (hlen : xp.length = fp.length)
    (hne : xp ≠ []) :
    ∃ l, npInterp xs xp fp = some l ∧ l.length = xs.length := by
  unfold npInterp
  rw [if_pos hlen]
  cases xp with
  | nil => exact absurd rfl hne
  | cons p ps =>
      cases fp with
      | nil => simp at hlen
      | cons q qs =>
          refine ⟨_, rfl, ?_⟩
          simp

/-- Helper: an in-range getD picks a member of the list. -/
theorem getD_mem_of_lt {α : Type} (l : List α) (d : α) (i : Nat)
    (h : i < l.length) : l.getD i d ∈ l := by
  rw [List.getD_eq_getElem?_getD, List.getElem?_eq_getElem h]
  exact List.getElem_mem h

/-- Helper: setEntry preserves the number of rows. -/
theorem setEntry_len (m : List (List ℚ)) (r idx : Nat) (v : ℚ) :
    (setEntry m r idx v).length = m.length := by
  simp [setEntry]

/-- Helper: setEntry preserves the length of every row. -/
theorem setEntry_rows (m : List (List ℚ)) (r idx : Nat) (v : ℚ) (nc : Nat)
    (h : ∀ row ∈ m, row.length = nc) :
    ∀ row ∈ setEntry m r idx v, row.length = nc := by
  by_cases hr : r < m.length
  · intro row hrow
    rcases List.mem_or_eq_of_mem_set hrow with h1 | h1
    · exact h row h1
    · subst h1
      rw [List.length_set]
      exact h _ (getD_mem_of_lt m [] r hr)
  · intro row hrow
    rw [setEntry, List.set_eq_of_length_le (le_of_not_lt hr)] at hrow
    exact h row hrow

/-- Helper: the inner assignment loop of interpColumnStep keeps the
matrix shape. -/
theorem innerFold_shape (idx : Nat) (ip : List ℚ) (nc : Nat) :
    ∀ (rs : List Nat) (m : List (List ℚ)), m.length = pmSteps →
      (∀ row ∈ m, row.length = nc) →
      ((rs.foldl (fun m2 r => setEntry m2 r idx (ip.getD r 0)) m).length = pmSteps ∧
        ∀ row ∈ rs.foldl (fun m2 r => setEntry m2 r idx (ip.getD r 0)) m,
          row.length = nc) := by
  intro rs
  induction rs with
  | nil => intro m h1 h2; exact ⟨h1, h2⟩
  | cons r rs ih =>
      intro m h1 h2
      simp only [List.foldl_cons]
      exact ih _ (by rw [setEntry_len]; exact h1)
        (setEntry_rows m r idx _ nc h2)

/-- Helper: one column-interpolation step succeeds on a well-shaped
matrix and keeps its shape. -/
theorem interpColumnStep_ok (kt rvals : List ℚ) (hkt2 : kt.length = 2)
    (hktne : kt ≠ []) (m : List (List ℚ)) (idx nc : Nat)
    (hlen : m.length = pmSteps) (hrows : ∀ row ∈ m, row.length = nc)
    (hidx : idx < nc) :
    ∃ m', interpColumnStep kt rvals m idx = Except.ok m' ∧
      m'.length = pmSteps ∧ ∀ row ∈ m', row.length = nc := by
  have h0 : (0 : Nat) < m.length := by rw [hlen]; decide
  have hlast : pmSteps - 1 < m.length := by rw [hlen]; decide
  have hl0 : (m.getD 0 []).length = nc := hrows _ (getD_mem_of_lt m [] 0 h0)
  have hl1 : (m.getD (pmSteps - 1) []).length = nc :=
    hrows _ (getD_mem_of_lt m [] (pmSteps - 1) hlast)
  have ea : (m.getD 0 []).get? idx = some ((m.getD 0 []).get ⟨idx, by rw [hl0]; exact hidx⟩) :=
    List.get?_eq_get _
  have eb : (m.getD (pmSteps - 1) []).get? idx =
      some ((m.getD (pmSteps - 1) []).get ⟨idx, by rw [hl1]; exact hidx⟩) :=
    List.get?_eq_get _
  obtain ⟨ip, eip, _⟩ := npInterp_ok rvals kt
    [(m.getD 0 []).get ⟨idx, by rw [hl0]; exact hidx⟩,
     (m.getD (pmSteps - 1) []).get ⟨idx, by rw [hl1]; exact hidx⟩]
    (by rw [hkt2]; rfl) hktne
  obtain ⟨hfl, hfr⟩ := innerFold_shape idx ip nc (List.range rvals.length) m hlen hrows
  refine ⟨_, ?_, hfl, hfr⟩
  simp only [interpColumnStep, ea, eb, exceptOf, except_ok_bind, eip]

/-- Helper: the whole column-interpolation fold succeeds and keeps the
matrix shape. -/
theorem foldlM_columns_ok (kt rvals : List ℚ) (hkt2 : kt.length = 2)
    (hktne : kt ≠ []) (nc : Nat) :
    ∀ (idxs : List Nat) (m : List (List ℚ)), (∀ i ∈ idxs, i < nc) →
      m.length = pmSteps → (∀ row ∈ m, row.length = nc) →
      ∃ m', idxs.foldlM (interpColumnStep kt rvals) m = Except.ok m' ∧
        m'.length = pmSteps ∧ ∀ row ∈ m', row.length = nc := by
  intro idxs
  induction idxs with
  | nil => intro m _ h1 h2; exact ⟨m, rfl, h1, h2⟩
  | cons i is ih =>
      intro m hb h1 h2
      obtain ⟨m1, e1, l1, r1⟩ := interpColumnStep_ok kt rvals hkt2 hktne m i nc h1 h2
        (hb i (List.mem_cons_self _ _))
      obtain ⟨m', e', l', r'⟩ := ih m1 (fun j hj => hb j (List.mem_cons_of_mem _ hj)) l1 r1
      refine ⟨m', ?_, l', r'⟩
      rw [List.foldlM_cons, e1, except_ok_bind, e']

/-- Helper: mapM in Except succeeds when every step does, and the result
collects one value per input. -/
theorem mapM_ok_of_forall {α β : Type} (step : α → Except String β) (Q : β → Prop) :
    ∀ (l : List α), (∀ a ∈ l, ∃ b, step a = Except.ok b ∧ Q b) →
      ∃ bs, l.mapM step = Except.ok bs ∧ bs.length = l.length ∧ ∀ b ∈ bs, Q b := by
  intro l
  induction l with
  | nil => intro _; exact ⟨[], rfl, rfl, by simp⟩
  | cons a as ih =>
      intro h
      obtain ⟨b, eb, qb⟩ := h a (List.mem_cons_self _ _)
      obtain ⟨bs, ebs, lbs, qbs⟩ := ih (fun x hx => h x (List.mem_cons_of_mem _ hx))
      refine ⟨b :: bs, ?_, by simp [lbs], ?_⟩
      · rw [List.mapM_cons, eb, except_ok_bind, ebs, except_ok_bind]; rfl
      · intro x hx
        rcases List.mem_cons.mp hx with h1 | h1
        · subst h1; exact qb
        · exact qbs x h1

/-- Helper: resampling one row succeeds on a well-shaped matrix and
yields one sample per query point. -/
theorem rowResample_ok (cal : Calib) (env : Nat → RowEnv)
    (interp_y : List (List ℚ)) (all_t : List ℚ) (idx : Nat)
    (hX : 0 < cal.known_x.length) (hlen : interp_y.length = pmSteps)
    (hidx : idx < pmSteps)
    (hrows : ∀ row ∈ interp_y, row.length = cal.known_x.length) :
    ∃ r, rowResample cal env interp_y all_t idx = Except.ok r ∧
      r.length = all_t.length := by
  have hmem := getD_mem_of_lt interp_y [] idx (by rw [hlen]; exact hidx)
  have hrl : (interp_y.getD idx []).length = cal.known_x.length := hrows _ hmem
  have hxne : cal.known_x ≠ [] := List.ne_nil_of_length_pos hX
  cases hc : create_interpolation_func (env idx) cal.known_x (interp_y.getD idx []) with
  | none =>
      obtain ⟨l, el, ll⟩ := npInterp_ok all_t cal.known_x (interp_y.getD idx [])
        hrl.symm hxne
      refine ⟨l, ?_, ll⟩
      simp only [rowResample, hc, el, exceptOf]
  | some f =>
      by_cases he : (env idx).evalFails = true
      · obtain ⟨l, el, ll⟩ := npInterp_ok all_t cal.known_x (interp_y.getD idx [])
          hrl.symm hxne
        refine ⟨l, ?_, ll⟩
        simp only [rowResample, hc, he, if_true, el, exceptOf]
      · refine ⟨all_t.map f, ?_, by simp⟩
        simp only [rowResample, hc, if_neg he]

/-- Helper: on a well-formed calibration, perform_interpolation succeeds
and produces a pmSteps x 71 surface carrying the calibration flow
temperatures and both sample axes. -/
theorem perform_interpolation_shape (cal : Calib) (env : Nat → RowEnv)
    (hWF : CalibWF cal) :
    ∃ st, perform_interpolation cal env = Except.ok st ∧
      st.steps = pmSteps ∧ st.known_t = cal.known_t ∧
      st.max_power.length = pmSteps ∧ (∀ row ∈ st.max_power, row.length = 71) ∧
      st.all_t = some (linspace (-30) 40 71) ∧
      (∃ rs, st.r_to_interpolate = some rs) := by
  obtain ⟨hT, hlt, hY, hX, hrows⟩ := hWF
  obtain ⟨t0, t1, ht⟩ := List.length_eq_two.mp hT
  obtain ⟨y0, y1, hy⟩ := List.length_eq_two.mp hY
  have hy0 : y0.length = cal.known_x.length :=
    hrows y0 (by rw [hy]; exact List.mem_cons_self _ _)
  have hy1 : y1.length = cal.known_x.length := hrows y1 (by rw [hy]; simp)
  have e1 : cal.known_t.get? 0 = some t0 := by rw [ht]; rfl
  have e2 : cal.known_t.get? 1 = some t1 := by rw [ht]; rfl
  have e3 : cal.known_y.get? 0 = some y0 := by rw [hy]; rfl
  have e4 : cal.known_y.get? 1 = some y1 := by rw [hy]; rfl
  have hm0len :
      (y0 :: (List.replicate (pmSteps - 2)
        (List.replicate cal.known_x.length (0 : ℚ)) ++ [y1])).length = pmSteps := by
    simp [pmSteps]
  have hm0rows :
      ∀ row ∈ y0 :: (List.replicate (pmSteps - 2)
          (List.replicate cal.known_x.length (0 : ℚ)) ++ [y1]),
        row.length = cal.known_x.length := by
    intro row hr
    simp only [List.mem_cons, List.mem_append, List.mem_replicate,
      List.mem_singleton] at hr
    rcases hr with h | (⟨_, h⟩ | (h | h))
    · rw [h]; exact hy0
    · rw [h]; simp
    · rw [h]; exact hy1
    · exact absurd h (List.not_mem_nil _)
  obtain ⟨m', em, lm, rm⟩ := foldlM_columns_ok cal.known_t (linspace t0 t1 pmSteps)
    hT (by rw [ht]; simp) cal.known_x.length (List.range cal.known_x.length) _
    (fun i hi => List.mem_range.mp hi) hm0len hm0rows
  have hall71 : (linspace (-30 : ℚ) 40 71).length = 71 := linspace_length _ _ _
  obtain ⟨mp, emp, lmp, rmp⟩ := mapM_ok_of_forall
    (rowResample cal env m' (linspace (-30) 40 71)) (fun r => r.length = 71)
    (List.range (linspace t0 t1 pmSteps).length)
    (fun idx hidx => by
      have hidx' : idx < pmSteps := by
        have := List.mem_range.mp hidx
        rwa [linspace_length] at this
      obtain ⟨r, er, lr⟩ := rowResample_ok cal env m' (linspace (-30) 40 71) idx
        hX lm hidx' rm
      exact ⟨r, er, show r.length = 71 by rw [lr, hall71]⟩)
  refine ⟨{ steps := pmSteps, known_t := cal.known_t, max_power := mp,
            all_t := some (linspace (-30) 40 71),
            r_to_interpolate := some (linspace t0 t1 pmSteps) },
    ?_, rfl, rfl, by rw [lmp, List.length_range, linspace_length], rmp, rfl, ⟨_, rfl⟩⟩
  simp only [perform_interpolation, e1, e2, e3, e4, exceptOf, except_ok_bind,
    em, emp]

/-- C7: curve fitting prefers the natural cubic spline, falls back to a
polynomial fit of degree min(8, number of points - 1) when the spline is
unavailable or fails, and to piecewise-linear interpolation (none from
create_interpolation_func) when that also fails; on every well-formed
calibration the build succeeds with one row per interpolation step, each
holding 71 samples. -/
theorem build_fallback_and_shape :
    (∀ (renv : RowEnv) (x y : List ℚ) (f : ℚ → ℚ),
        ¬(x.length ≠ y.length ∨ x.length < 2) →
        renv.splineAvailable = true → renv.splineFit = FitResult.ok f →
        create_interpolation_func renv x y = some f) ∧
    (∀ (renv : RowEnv) (x y : List ℚ) (g : ℚ → ℚ),
        ¬(x.length ≠ y.length ∨ x.length < 2) →
        (renv.splineAvailable = false ∨ renv.splineFit = FitResult.fail) →
        renv.chebFit (min 8 (x.length - 1)) = FitResult.ok g →
        create_interpolation_func renv x y = some g) ∧
    (∀ (renv : RowEnv) (x y : List ℚ),
        ¬(x.length ≠ y.length ∨ x.length < 2) →
        (renv.splineAvailable = false ∨ renv.splineFit = FitResult.fail) →
        renv.chebFit (min 8 (x.length - 1)) = FitResult.fail →
        create_interpolation_func renv x y = none) ∧
    (∀ (cal : Calib) (env : Nat → RowEnv), CalibWF cal →
        ∃ st, perform_interpolation cal env = Except.ok st ∧
          st.max_power.length = pmSteps ∧ ∀ row ∈ st.max_power, row.length = 71) := by
  refine ⟨?_, ?_, ?_, ?_⟩
  · intro renv x y f hval hs hf
    simp [create_interpolation_func, hval, hs, hf]
  · intro renv x y g hval hd hcheb
    rcases hd with hd | hd
    · simp [create_interpolation_func, hval, hd, hcheb]
    · cases ha : renv.splineAvailable
      · simp [create_interpolation_func, hval, ha, hcheb]
      · simp [create_interpolation_func, hval, ha, hd, hcheb]
  · intro renv x y hval hd hcheb
    rcases hd with hd | hd
    · simp [create_interpolation_func, hval, hd, hcheb]
    · cases ha : renv.splineAvailable
      · simp [create_interpolation_func, hval, ha, hcheb]
      · simp [create_interpolation_func, hval, ha, hd, hcheb]
  · intro cal env hWF
    obtain ⟨st, e, _, _, hlen, hrows, _, _⟩ := perform_interpolation_shape cal env hWF
    exact ⟨st, e, hlen, hrows⟩

/-- Witness for C7: the three fallback tiers at concrete two-point data,
and the build on a concrete calibration. -/
theorem build_fallback_and_shape_witness :
    create_interpolation_func renv1 [0, 1] [1, 2] = some f0 ∧
    create_interpolation_func renv2 [0, 1] [1, 2] = some g0 ∧
    create_interpolation_func renv3 [0, 1] [1, 2] = none ∧
    (∃ st, perform_interpolation cal1 env0 = Except.ok st ∧
      st.max_power.length = pmSteps ∧ ∀ row ∈ st.max_power, row.length = 71) :=
  ⟨build_fallback_and_shape.1 renv1 [0, 1] [1, 2] f0 (by decide) rfl rfl,
   build_fallback_and_shape.2.1 renv2 [0, 1] [1, 2] g0 (by decide) (Or.inl rfl) rfl,
   build_fallback_and_shape.2.2.1 renv3 [0, 1] [1, 2] (by decide) (Or.inl rfl) rfl,
   build_fallback_and_shape.2.2.2 cal1 env0 (by decide)⟩

/-- C10: querying before the surface is built yields the ValueError
PowerMap not initialized, and after a successful build on a well-formed
calibration the query never raises for any pair of inputs. -/
theorem map_initialization_guard :
    (∀ (st : PMState) (ot ft : ℚ),
        st.max_power = [] ∨ st.all_t = none ∨ st.r_to_interpolate = none →
        PowerMap.map st ot ft = Except.error "PowerMap not initialized") ∧
    (∀ (cal : Calib) (env : Nat → RowEnv) (st : PMState), CalibWF cal →
        perform_interpolation cal env = Except.ok st →
        ∀ ot ft : ℚ, ∃ v, PowerMap.map st ot ft = Except.ok v) := by
  constructor
  · intro st ot ft h
    unfold PowerMap.map
    rw [if_pos h]
  · intro cal env st hWF hok ot ft
    obtain ⟨st', e', hsteps, hkt, hlen, hrows, hall, hr⟩ :=
      perform_interpolation_shape cal env hWF
    have hst : st = st' := by
      rw [hok] at e'
      exact Except.ok.inj e'
    subst hst
    obtain ⟨hT, hlt0, _, _, _⟩ := hWF
    obtain ⟨t0, t1, ht⟩ := List.length_eq_two.mp hT
    have hlt : t0 < t1 := by
      rw [ht] at hlt0
      simpa using hlt0
    have hcond : ¬(st.max_power = [] ∨ st.all_t = none ∨
        st.r_to_interpolate = none) := by
      intro hc
      rcases hc with hc | hc | hc
      · rw [hc] at hlen; simp [pmSteps] at hlen
      · rw [hall] at hc; simp at hc
      · obtain ⟨rs, hrs⟩ := hr; rw [hrs] at hc; simp at hc
    have e1 : st.known_t.get? 0 = some t0 := by rw [hkt, ht]; rfl
    have e2 : st.known_t.get? 1 = some t1 := by rw [hkt, ht]; rfl
    have hne : ¬(t1 - t0 = 0) := sub_ne_zero.mpr (ne_of_gt hlt)
    have hy1 : max 0 (min ((st.steps : Int) - 1)
        (pyInt ((ft - t0) / (t1 - t0) * ((st.steps : ℚ) - 1)))) ≤ (st.steps : Int) - 1 := by
      apply max_le
      · rw [hsteps]; simp [pmSteps]
      · exact min_le_left _ _
    have hy0' : (0 : Int) ≤ max 0 (min ((st.steps : Int) - 1)
        (pyInt ((ft - t0) / (t1 - t0) * ((st.steps : ℚ) - 1)))) := le_max_left _ _
    have h20 : ((st.steps : Int) - 1) = 20 := by rw [hsteps]; rfl
    have hyn : (max 0 (min ((st.steps : Int) - 1)
        (pyInt ((ft - t0) / (t1 - t0) * ((st.steps : ℚ) - 1))))).toNat <
        st.max_power.length := by
      rw [hlen]
      rw [h20] at hy1
      simp only [pmSteps]
      omega
    have erow := List.get?_eq_get hyn
    have hrowlen : (st.max_power.get ⟨_, hyn⟩).length = 71 :=
      hrows _ (st.max_power.get_mem _ _)
    have hx70 : xIndex ot ≤ 70 := max_le (by norm_num) (min_le_left _ _)
    have hx0 : (0 : Int) ≤ xIndex ot := le_max_left _ _
    have hxn : (xIndex ot).toNat < (st.max_power.get ⟨_, hyn⟩).length := by
      rw [hrowlen]
      omega
    have ev := List.get?_eq_get hxn
    have heq : PowerMap.map st ot ft = Except.ok
        ((st.max_power.get ⟨(max 0 (min ((st.steps : Int) - 1)
            (pyInt ((ft - t0) / (t1 - t0) * ((st.steps : ℚ) - 1))))).toNat, hyn⟩).get
          ⟨(xIndex ot).toNat, hxn⟩) := by
      unfold PowerMap.map
      rw [if_neg hcond]
      simp only [e1, e2, exceptOf, except_ok_bind]
      rw [if_neg hne]
      simp only [erow, exceptOf, except_ok_bind, ev]
    exact ⟨_, heq⟩

/-- Witness for C10: the unbuilt state raises, and a build on a concrete
calibration yields a state whose query succeeds. -/
theorem map_initialization_guard_witness :
    PowerMap.map st_empty 20 45 = Except.error "PowerMap not initialized" ∧
    ∃ st, perform_interpolation cal1 env0 = Except.ok st ∧
      ∃ v, PowerMap.map st 20 45 = Except.ok v := by
  constructor
  · exact map_initialization_guard.1 st_empty 20 45 (Or.inl rfl)
  · obtain ⟨st, hok, _⟩ := perform_interpolation_shape cal1 env0 (by decide)
    exact ⟨st, hok, map_initialization_guard.2 cal1 env0 st (by decide) hok 20 45⟩

/-- C8 (divergence record): the startup fallback covers OSError, invalid
JSON and missing keys only; a file whose three keys are present but whose
known_x holds a value float() cannot convert makes initialization
propagate the ValueError instead of falling back to the defaults. -/
theorem setup_nonnumeric_value_raises :
    powermap_setup default_calib
        (FileContent.parsed [JsonNum.notNumeric] [] []) env0 =
      Except.error "ValueError" ∧
    powermap_setup default_calib FileContent.absent env0 =
      perform_interpolation default_calib env0 ∧
    powermap_setup default_calib FileContent.invalidJson env0 =
      perform_interpolation default_calib env0 ∧
    powermap_setup default_calib FileContent.missingKey env0 =
      perform_interpolation default_calib env0 :=
  ⟨rfl, rfl, rfl, rfl⟩

end WeishauptModbus
